import Mathlib

/-!
Verification of the pulsepoint-livekit-room-manager triage orchestrator.

This development shallowly embeds the Python sources:
- the triage agent in app.py (MedicalTriageAgent: the per-turn pipeline
  on_user_turn_completed, the payload builder _build_llm_payload, the HTTP
  wrappers _classify_message / _invoke_council and the confirmation rule
  _council_confirms_emergency), and
- the FastAPI session/alert service in room_manager.py (normalize_phone,
  trigger_emergency_alerts, end_session).

Conventions of the embedding:
- Python str values are Lean String; the string helpers below mirror the
  Python primitives (strip, single-character replace, startswith) by
  structural recursion on the character list so they evaluate inside proofs.
- JSON dict bodies from the backends are records whose fields are Option
  values; an absent key is none (a key present with JSON null is identified
  with an absent key, which is the only place the embedding coarsens the
  source).
- Python floats are ℚ (all the constants involved are decimal literals).
- Each failable outbound HTTP/Twilio call is a parameter of the embedded
  function: an HttpOutcome value for the two backend calls, and oracle
  functions phone ↦ Except error sid for the Twilio sends.
- Wall-clock timestamps (datetime.now) carry no logic in any claim and are
  omitted from the records.
-/

/-! ## Python string primitives -/

/-- Python str.strip on a character list: whitespace dropped at both ends. -/
def stripChars (cs : List Char) : List Char :=
  ((cs.dropWhile Char.isWhitespace).reverse.dropWhile Char.isWhitespace).reverse

/-- Python str.strip. -/
def pyStrip (s : String) : String := String.mk (stripChars s.data)

/-- Python str.replace(c, "") for a single-character pattern: removes every
occurrence of the character. -/
def removeChar (s : String) (c : Char) : String :=
  String.mk (s.data.filter (fun a => !(a == c)))

/-- Python str.startswith. -/
def pyStartsWith (s pre : String) : Bool := pre.data.isPrefixOf s.data

/-- Python truthiness of an optional string value (`if value:`):
present and non-empty. -/
def truthyStr : Option String → Bool
  | some s => s != ""
  | none => false

/-- Python `value or default` for an optional string: the value when truthy,
otherwise the default. -/
def orDefault (v : Option String) (d : String) : String :=
  if truthyStr v then v.getD d else d

/-- Python `a or b` for lists (an empty list is falsy). -/
def orList (a b : List String) : List String :=
  if a.isEmpty then b else a

/-! ## room_manager.normalize_phone -/

/-- room_manager.normalize_phone: strip whitespace; when the number does not
start with "+", remove dashes, spaces and parentheses and prefix "+1";
a number already starting with "+" is returned as stripped. -/
def normalizePhone (phone : String) : String :=
  let phone := pyStrip phone
  if !(pyStartsWith phone "+") then
    let cleaned := removeChar (removeChar (removeChar (removeChar phone '-') ' ') '(') ')'
    "+1" ++ cleaned
  else phone

/-- Canonical E.164 number, from the spec words: a "+" followed by one to
fifteen digits and nothing else. -/
def isE164 (s : String) : Bool :=
  match s.data with
  | [] => false
  | c :: rest =>
      c == '+' && !rest.isEmpty && decide (rest.length ≤ 15) && rest.all Char.isDigit

/-! ## Council data model and confirmation rule (app.py) -/

/-- One entry of the council_votes mapping: both keys are read with dict.get,
so either may be absent. -/
structure Voter where
  urgency : Option String
  confidence : Option ℚ
deriving DecidableEq, Repr

/-- JSON body of a council backend response, fields read with dict.get.
council_votes is the mapping voterId ↦ vote; dict.get("council_votes", \x7b\x7d)
makes an absent mapping the empty list. -/
structure CouncilResponse where
  response : Option String
  urgency : Option String
  confidence : Option ℚ
  council_votes : List (String × Voter)
deriving DecidableEq, Repr

/-- MedicalTriageAgent._council_confirms_emergency (app.py lines 246-265). -/
def councilConfirmsEmergency (council_response : CouncilResponse) : Bool :=
  let votes := council_response.council_votes
  if votes.isEmpty then
    -- No votes - use top-level urgency
    council_response.urgency == some "HIGH"
  else
    let high_votes := votes.countP (fun v => v.2.urgency == some "HIGH")
    let total_votes := votes.length
    -- Majority rule
    if (high_votes : ℚ) > (total_votes : ℚ) / 2 then
      true
    else
      -- Or high average confidence
      let avg_confidence := ((votes.map (fun v => v.2.confidence.getD 0)).sum) / (total_votes : ℚ)
      decide (avg_confidence > 85 / 100)

/-- Count of voters whose urgency is HIGH (the claim's "high"). -/
def highVoteCount (r : CouncilResponse) : ℕ :=
  r.council_votes.countP (fun v => v.2.urgency == some "HIGH")

/-- Arithmetic mean of the voters' confidence values (a missing confidence
key contributes 0, as dict.get("confidence", 0) does). -/
def meanConfidence (r : CouncilResponse) : ℚ :=
  ((r.council_votes.map (fun v => v.2.confidence.getD 0)).sum) / (r.council_votes.length : ℚ)

/-- Division with an explicit zero-divisor guard, used to express that the
mean-confidence division of the confirmation rule never divides by zero. -/
def checkedDiv (a b : ℚ) : Option ℚ := if b = 0 then none else some (a / b)

/-- The confirmation rule with its division routed through checkedDiv: it
returns none exactly when the code would divide by a zero vote count. -/
def councilConfirmsChecked (r : CouncilResponse) : Option Bool :=
  let votes := r.council_votes
  if votes.isEmpty then
    some (r.urgency == some "HIGH")
  else
    let high_votes := votes.countP (fun v => v.2.urgency == some "HIGH")
    let total_votes := votes.length
    if (high_votes : ℚ) > (total_votes : ℚ) / 2 then
      some true
    else
      (checkedDiv ((votes.map (fun v => v.2.confidence.getD 0)).sum) (total_votes : ℚ)).map
        (fun avg => decide (avg > 85 / 100))

/-! ## Turn pipeline (app.py MedicalTriageAgent) -/

/-- One conversation turn as stored in conversation_history: the human
utterance and the assistant reply, None until the response is produced. -/
structure Turn where
  human : String
  assistant : Option String
deriving DecidableEq, Repr

/-- SessionState of app.py (the fields the per-turn pipeline touches;
session_start is a wall-clock timestamp and is omitted). -/
structure SessionState where
  patient_id : Option String := none
  location : Option String := none
  conversation_history : List Turn := []
  current_image : Option String := none
  is_emergency : Bool := false
  emergency_confirmed : Bool := false
  council_response : Option CouncilResponse := none
deriving DecidableEq, Repr

/-- Outcome of one outbound HTTP POST: a 200 with a parsed JSON body, a
non-success status code, or a raised transport/parse exception. -/
inductive HttpOutcome (α : Type) where
  | success (body : α)
  | badStatus (code : ℕ)
  | failure
deriving DecidableEq, Repr

/-- JSON body of a classification backend response, fields read with dict.get. -/
structure ClassificationDict where
  category : Option String
  response : Option String
deriving DecidableEq, Repr

/-- MedicalTriageAgent._classify_message (app.py lines 207-220): the backend
body on a 200, and the fixed UNKNOWN fallback dict on a non-200 status or a
raised exception. -/
def classifyMessage : HttpOutcome ClassificationDict → ClassificationDict
  | .success body => body
  | .badStatus _ => { category := some "UNKNOWN", response := some "Could you describe your symptoms?" }
  | .failure => { category := some "UNKNOWN", response := some "Could you describe your symptoms?" }

/-- The fixed fail-safe council dict returned by _invoke_council on a non-200
status or a raised exception (app.py lines 231-244). -/
def councilFallback : CouncilResponse :=
  { response := some "Emergency services have been notified. Please stay calm.",
    urgency := some "HIGH",
    confidence := some (8 / 10),
    council_votes := [] }

/-- MedicalTriageAgent._invoke_council (app.py lines 222-244). -/
def invokeCouncil : HttpOutcome CouncilResponse → CouncilResponse
  | .success body => body
  | .badStatus _ => councilFallback
  | .failure => councilFallback

/-- conversation_history[-1]["assistant"] = text: replace the assistant field
of the last turn, leaving every other turn unchanged (identity on an empty
history, matching the `if self.session_state.conversation_history:` guard). -/
def setLastAssistant (history : List Turn) (text : String) : List Turn :=
  match history with
  | [] => []
  | [t] => [{ t with assistant := some text }]
  | t :: rest => t :: setLastAssistant rest text

/-- Observable result of one call to on_user_turn_completed: the updated
session state, the returned response (None on a blank utterance), whether the
council endpoint was invoked, and whether the emergency-SMS dispatch was
invoked. -/
structure TurnOutput where
  state : SessionState
  response : Option String
  councilCalled : Bool
  smsSent : Bool
deriving DecidableEq, Repr

/-- MedicalTriageAgent.on_user_turn_completed (app.py lines 109-176), with the
two outbound calls supplied as HttpOutcome parameters.  The council outcome is
consulted only on the emergency-grade branch, and _send_emergency_sms (which
swallows its own errors) is recorded as the smsSent flag.  Within this
embedding every modelled component is total, so the outer
`except Exception` handler of the source is unreachable. -/
def onUserTurnCompleted (st : SessionState) (new_message : String)
    (classifyOutcome : HttpOutcome ClassificationDict)
    (councilOutcome : HttpOutcome CouncilResponse) : TurnOutput :=
  if pyStrip new_message == "" then
    { state := st, response := none, councilCalled := false, smsSent := false }
  else
    let st := { st with conversation_history := st.conversation_history ++ [({ human := new_message, assistant := none } : Turn)] }
    let classification := classifyMessage classifyOutcome
    if classification.category == some "CRITICAL" || classification.category == some "EMERGENCY" then
      let st := { st with is_emergency := true }
      let council := invokeCouncil councilOutcome
      let st := { st with council_response := some council }
      if councilConfirmsEmergency council then
        let st := { st with emergency_confirmed := true }
        let response_text := council.response.getD
          "This is an emergency. Help is being dispatched. Please stay calm."
        let st := { st with conversation_history := setLastAssistant st.conversation_history response_text }
        { state := st, response := some response_text, councilCalled := true, smsSent := true }
      else
        let st := { st with is_emergency := false }
        let response_text := council.response.getD
          "After careful review, your symptoms need attention but may not be immediately critical. Please monitor your condition and seek medical care soon."
        let st := { st with conversation_history := setLastAssistant st.conversation_history response_text }
        { state := st, response := some response_text, councilCalled := true, smsSent := false }
    else
      let response_text := classification.response.getD
        "I understand. Can you tell me more about your symptoms?"
      let st := { st with conversation_history := setLastAssistant st.conversation_history response_text }
      { state := st, response := some response_text, councilCalled := false, smsSent := false }

/-! ## Payload builder (app.py _build_llm_payload) -/

/-- One exchange of the formatted history sent to the backend. -/
structure Exchange where
  assistant : String
  human : String
deriving DecidableEq, Repr

/-- The body of the history loop of _build_llm_payload for one turn:
a turn with truthy human and truthy assistant is emitted as the pair, a turn
with truthy human only is emitted with the "" placeholder, any other turn is
skipped. -/
def formatTurn (turn : Turn) : Option Exchange :=
  if truthyStr turn.assistant && (turn.human != "") then
    some { assistant := turn.assistant.getD "", human := turn.human }
  else if turn.human != "" then
    some { assistant := "", human := turn.human }
  else none

/-- The payload dict built by _build_llm_payload; the image key is present
only when current_image is truthy. -/
structure LlmPayload where
  text : List Exchange
  patient_id : String
  location : String
  image : Option String
deriving DecidableEq, Repr

/-- MedicalTriageAgent._build_llm_payload (app.py lines 178-205). -/
def buildLlmPayload (st : SessionState) : LlmPayload :=
  { text := st.conversation_history.filterMap formatTurn,
    patient_id := orDefault st.patient_id "UNKNOWN",
    location := orDefault st.location "UNKNOWN",
    image := if truthyStr st.current_image then st.current_image else none }

/-! ## Session/alert service (room_manager.py) -/

/-- The per-room session dict stored in active_sessions by start_session
(started_at is a wall-clock timestamp string kept opaque). -/
structure RoomSession where
  patient_id : String
  location : String
  hardware_id : String
  started_at : String
  image : Option String
  doctor_ids : List String
  emergency_phones : List String
  doctor_token : String
  join_url : String
deriving DecidableEq, Repr

/-- One entry of the alerts_sent log (source keys phone/type/status plus the
Twilio sid; the timestamp is omitted). -/
structure AlertRecord where
  phone : String
  channel : String
  status : String
  sid : Option String
deriving DecidableEq, Repr

/-- One entry of the results list returned by trigger_emergency_alerts
(source keys phone/type/status and the optional error string). -/
structure AttemptResult where
  phone : String
  channel : String
  status : String
  error : Option String
deriving DecidableEq, Repr

/-- Body of POST /session/emergency-alert. -/
structure EmergencyAlertRequest where
  room_name : String
  assessment : String
  urgency : String
  phone_numbers : Option (List String)
  send_sms : Bool := true
  make_call : Bool := true
deriving DecidableEq, Repr

/-- The module-level mutable state of room_manager.py: the active_sessions
and alerts_sent dicts, as association lists keyed by room name (dict keys
are unique, so removing a key is filtering it out). -/
structure ManagerState where
  active_sessions : List (String × RoomSession)
  alerts_sent : List (String × List AlertRecord)
deriving DecidableEq, Repr

/-- Twilio-side environment of one request: configuration presence and the
outcome each send would have (ok sid, or error message for a raised
exception). -/
structure TwilioEnv where
  twilio_phone : Option String
  credentials_ok : Bool
  env_phone_numbers : List String
  smsOutcome : String → Except String String
  callOutcome : String → Except String String

/-- Dict lookup in active_sessions. -/
def lookupRoom (st : ManagerState) (room : String) : Option RoomSession :=
  (st.active_sessions.find? (fun p => p.1 == room)).map Prod.snd

/-- Dict lookup in alerts_sent. -/
def lookupAlerts (st : ManagerState) (room : String) : Option (List AlertRecord) :=
  (st.alerts_sent.find? (fun p => p.1 == room)).map Prod.snd

/-- alerts_sent[room].extend(recs): append records to the room's log entry
(a no-op when the room has no log entry; start_session always creates one). -/
def appendAlerts (al : List (String × List AlertRecord)) (room : String)
    (recs : List AlertRecord) : List (String × List AlertRecord) :=
  al.map (fun p => if p.1 == room then (p.1, p.2 ++ recs) else p)

/-- dict.pop(room): drop the room's entry (dict keys are unique). -/
def popKey {α : Type} (al : List (String × α)) (room : String) : List (String × α) :=
  al.filter (fun p => !(p.1 == room))

/-- HTTP error raised by an endpoint (HTTPException status and detail). -/
inductive HttpError where
  | notFound
  | badRequest (detail : String)
  | serverError (detail : String)
deriving DecidableEq, Repr

/-- The phone_numbers resolution of trigger_emergency_alerts:
request.phone_numbers or session["emergency_phones"] or the env-configured
list (Python `or`: None and the empty list are falsy). -/
def resolvePhones (req : EmergencyAlertRequest) (session : RoomSession)
    (env : TwilioEnv) : List String :=
  orList (req.phone_numbers.getD []) (orList session.emergency_phones env.env_phone_numbers)

/-- Body of the per-contact loop of trigger_emergency_alerts for one phone:
normalize, then attempt SMS when requested, then attempt the call when
requested; a raised Twilio exception is recorded as a failed result and adds
no log record.  Mirrors the statement order of the source; the pair collects
(results entries, alerts_sent entries). -/
def attemptStep (env : TwilioEnv) (req : EmergencyAlertRequest)
    (acc : List AttemptResult × List AlertRecord) (phone0 : String) :
    List AttemptResult × List AlertRecord :=
  let phone := normalizePhone phone0
  let acc :=
    if req.send_sms then
      match env.smsOutcome phone with
      | Except.ok sid =>
          (acc.1 ++ [{ phone := phone, channel := "sms", status := "sent", error := none }],
           acc.2 ++ [{ phone := phone, channel := "sms", status := "sent", sid := some sid }])
      | Except.error e =>
          (acc.1 ++ [{ phone := phone, channel := "sms", status := "failed", error := some e }],
           acc.2)
    else acc
  if req.make_call then
    match env.callOutcome phone with
    | Except.ok sid =>
        (acc.1 ++ [{ phone := phone, channel := "call", status := "calling", error := none }],
         acc.2 ++ [{ phone := phone, channel := "call", status := "initiated", sid := some sid }])
    | Except.error e =>
        (acc.1 ++ [{ phone := phone, channel := "call", status := "failed", error := some e }],
         acc.2)
  else acc

/-- The for-loop of trigger_emergency_alerts over the resolved contact list. -/
def triggerLoop (env : TwilioEnv) (req : EmergencyAlertRequest)
    (phones : List String) : List AttemptResult × List AlertRecord :=
  phones.foldl (attemptStep env req) ([], [])

/-- Response body of POST /session/emergency-alert. -/
structure TriggerResponse where
  status : String
  room_name : String
  urgency : String
  join_url : String
  results : List AttemptResult
deriving DecidableEq, Repr

/-- trigger_emergency_alerts (room_manager.py lines 499-614): guards for an
unknown room, an empty resolved contact list and missing Twilio
configuration, then the per-contact loop; the log records are appended to the
room's alerts_sent entry and the results are returned. -/
def triggerEmergencyAlerts (env : TwilioEnv) (st : ManagerState)
    (req : EmergencyAlertRequest) : Except HttpError (TriggerResponse × ManagerState) :=
  match lookupRoom st req.room_name with
  | none => Except.error HttpError.notFound
  | some session =>
      let phone_numbers := resolvePhones req session env
      if phone_numbers.isEmpty then
        Except.error (HttpError.badRequest "No emergency phone numbers configured")
      else if !(truthyStr env.twilio_phone) then
        Except.error (HttpError.serverError "Twilio phone number not configured")
      else if !env.credentials_ok then
        Except.error (HttpError.serverError "Twilio credentials not configured")
      else
        let lr := triggerLoop env req phone_numbers
        Except.ok
          ({ status := "alerts_triggered", room_name := req.room_name, urgency := req.urgency,
             join_url := session.join_url, results := lr.1 },
           { st with alerts_sent := appendAlerts st.alerts_sent req.room_name lr.2 })

/-- Response body of POST /session/end. -/
structure EndResponse where
  status : String
  room_name : Option String
  patient_id : Option String
deriving DecidableEq, Repr

/-- end_session (room_manager.py lines 340-370): an unknown room returns the
not_found body; otherwise the backing room is deleted (outcome supplied as
deleteSucceeds) and only after a successful deletion are the active_sessions
entry and the alert log removed; a failed deletion raises a 500 with the
state untouched.  The returned pair carries the endpoint result and the
state after the call. -/
def endSession (deleteSucceeds : Bool) (st : ManagerState) (room_name : String) :
    Except HttpError EndResponse × ManagerState :=
  match lookupRoom st room_name with
  | none =>
      (Except.ok { status := "not_found", room_name := none, patient_id := none }, st)
  | some session_info =>
      if deleteSucceeds then
        (Except.ok { status := "ended", room_name := some room_name,
                     patient_id := some session_info.patient_id },
         { active_sessions := popKey st.active_sessions room_name,
           alerts_sent := popKey st.alerts_sent room_name })
      else
        (Except.error (HttpError.serverError "Failed to end session"), st)

/-! ## Theorems -/

/-- Claim C1: the confirmation rule is the exact pure function of a
CouncilResult: when votes is non-empty, it confirms iff the count of voters
with urgency HIGH is strictly greater than half the total vote count, or the
arithmetic mean of the voters' confidence values is strictly greater than
0.85; when votes is empty, it confirms iff the top-level urgency equals HIGH.
This holds for every council response. -/
theorem confirmation_rule_characterization (r : CouncilResponse) :
    councilConfirmsEmergency r = true ↔
      (if r.council_votes.isEmpty then r.urgency = some "HIGH"
       else ((highVoteCount r : ℚ) > (r.council_votes.length : ℚ) / 2 ∨
             meanConfidence r > 85 / 100)) := by
  by_cases hvotes : r.council_votes.isEmpty
  · simp [councilConfirmsEmergency, hvotes]
  · simp only [councilConfirmsEmergency, highVoteCount, meanConfidence, hvotes,
      if_false, Bool.false_eq_true]
    split
    · simp_all
    · simp_all

/-- Claim C9: the confirmation-rule function is total, and the division by
the total vote count in the mean-confidence computation never has a zero
divisor: the variant whose division carries an explicit zero-divisor guard
agrees with the function on every input (including voters lacking urgency or
confidence keys), so the guard never fires. -/
theorem confirmation_rule_total (r : CouncilResponse) :
    councilConfirmsChecked r = some (councilConfirmsEmergency r) := by
  by_cases hvotes : r.council_votes.isEmpty
  · simp [councilConfirmsChecked, councilConfirmsEmergency, hvotes]
  · have hne : r.council_votes ≠ [] := by
      simpa [List.isEmpty_iff] using hvotes
    have hlen : (r.council_votes.length : ℚ) ≠ 0 := by
      exact_mod_cast fun h => hne (List.length_eq_zero.mp (by exact_mod_cast h))
    simp only [councilConfirmsChecked, councilConfirmsEmergency, checkedDiv, hvotes,
      Bool.false_eq_true, if_false, hlen, Option.map_some]
    by_cases hmaj : ((r.council_votes.length : ℚ) / 2 <
        (r.council_votes.countP (fun v => v.2.urgency == some "HIGH") : ℚ))
    · simp [hmaj]
    · simp [hmaj]

/-- setLastAssistant rewrites only the final turn: appending a fresh open
turn and filling leaves every earlier turn unchanged. -/
theorem setLastAssistant_append (h : List Turn) (turn : Turn) (text : String) :
    setLastAssistant (h ++ [turn]) text = h ++ [{ turn with assistant := some text }] := by
  induction h with
  | nil => rfl
  | cons a rest ih =>
      cases rest with
      | nil => rfl
      | cons b rest2 =>
          simpa [setLastAssistant] using ih

/-- Claim C3: when the council call fails (transport error or non-success
status), the orchestrator fails open: it proceeds exactly as if the council
confirmed an emergency with urgency HIGH and confidence 0.8, so for every
such turn emergencyConfirmed becomes true, the alert is triggered, and a
non-empty urgent response is returned rather than an exception propagating. -/
theorem council_failure_fails_open (st : SessionState) (msg : String)
    (classifyOutcome : HttpOutcome ClassificationDict)
    (councilOutcome : HttpOutcome CouncilResponse)
    (hmsg : pyStrip msg ≠ "")
    (hcat : (classifyMessage classifyOutcome).category = some "CRITICAL" ∨
            (classifyMessage classifyOutcome).category = some "EMERGENCY")
    (hfail : ∀ body, councilOutcome ≠ HttpOutcome.success body) :
    (onUserTurnCompleted st msg classifyOutcome councilOutcome).state.emergency_confirmed = true ∧
    (onUserTurnCompleted st msg classifyOutcome councilOutcome).state.council_response =
      some councilFallback ∧
    councilFallback.urgency = some "HIGH" ∧
    councilFallback.confidence = some (8 / 10) ∧
    (onUserTurnCompleted st msg classifyOutcome councilOutcome).smsSent = true ∧
    (onUserTurnCompleted st msg classifyOutcome councilOutcome).response =
      some "Emergency services have been notified. Please stay calm." ∧
    "Emergency services have been notified. Please stay calm." ≠ "" := by
  have hmsgb : (pyStrip msg == "") = false := beq_eq_false_iff_ne.mpr hmsg
  have hcouncil : invokeCouncil councilOutcome = councilFallback := by
    cases councilOutcome with
    | success body => exact absurd rfl (hfail body)
    | badStatus code => rfl
    | failure => rfl
  have hcatb : ((classifyMessage classifyOutcome).category == some "CRITICAL" ||
      (classifyMessage classifyOutcome).category == some "EMERGENCY") = true := by
    rcases hcat with h | h <;> simp [h]
  have hconf : councilConfirmsEmergency councilFallback = true := by decide
  simp only [onUserTurnCompleted, hmsgb, hcatb, hcouncil, hconf, Bool.false_eq_true,
    if_false, if_true]
  refine ⟨?_, ?_, ?_, ?_, ?_, ?_, ?_⟩ <;> trivial

/-- Witness for council_failure_fails_open: a CRITICAL classification whose
council call raises. -/
theorem council_failure_fails_open_witness :
    (onUserTurnCompleted {} "I have crushing chest pain"
        (HttpOutcome.success { category := some "CRITICAL", response := some "r" })
        HttpOutcome.failure).state.emergency_confirmed = true ∧
    (onUserTurnCompleted {} "I have crushing chest pain"
        (HttpOutcome.success { category := some "CRITICAL", response := some "r" })
        HttpOutcome.failure).state.council_response = some councilFallback ∧
    councilFallback.urgency = some "HIGH" ∧
    councilFallback.confidence = some (8 / 10) ∧
    (onUserTurnCompleted {} "I have crushing chest pain"
        (HttpOutcome.success { category := some "CRITICAL", response := some "r" })
        HttpOutcome.failure).smsSent = true ∧
    (onUserTurnCompleted {} "I have crushing chest pain"
        (HttpOutcome.success { category := some "CRITICAL", response := some "r" })
        HttpOutcome.failure).response =
      some "Emergency services have been notified. Please stay calm." ∧
    "Emergency services have been notified. Please stay calm." ≠ "" :=
  council_failure_fails_open {} "I have crushing chest pain"
    (HttpOutcome.success { category := some "CRITICAL", response := some "r" })
    HttpOutcome.failure
    (by decide) (Or.inl rfl) (fun body h => HttpOutcome.noConfusion h)

/-- Claim C4: when the classification call fails (transport error or
non-success status), the turn's category is treated as UNKNOWN and a generic
clarifying response is returned; on every such turn no council call is made,
no alert is dispatched, and no emergency flag is set. -/
theorem classify_failure_no_escalation (st : SessionState) (msg : String)
    (classifyOutcome : HttpOutcome ClassificationDict)
    (councilOutcome : HttpOutcome CouncilResponse)
    (hmsg : pyStrip msg ≠ "")
    (hfail : ∀ body, classifyOutcome ≠ HttpOutcome.success body) :
    (classifyMessage classifyOutcome).category = some "UNKNOWN" ∧
    (onUserTurnCompleted st msg classifyOutcome councilOutcome).response =
      some "Could you describe your symptoms?" ∧
    (onUserTurnCompleted st msg classifyOutcome councilOutcome).councilCalled = false ∧
    (onUserTurnCompleted st msg classifyOutcome councilOutcome).smsSent = false ∧
    (onUserTurnCompleted st msg classifyOutcome councilOutcome).state.is_emergency =
      st.is_emergency ∧
    (onUserTurnCompleted st msg classifyOutcome councilOutcome).state.emergency_confirmed =
      st.emergency_confirmed ∧
    (onUserTurnCompleted st msg classifyOutcome councilOutcome).state.council_response =
      st.council_response := by
  have hmsgb : (pyStrip msg == "") = false := beq_eq_false_iff_ne.mpr hmsg
  have hclass : classifyMessage classifyOutcome =
      { category := some "UNKNOWN", response := some "Could you describe your symptoms?" } := by
    cases classifyOutcome with
    | success body => exact absurd rfl (hfail body)
    | badStatus code => rfl
    | failure => rfl
  simp only [onUserTurnCompleted, hmsgb, hclass, Bool.false_eq_true, if_false]
  refine ⟨?_, ?_, ?_, ?_, ?_, ?_, ?_⟩ <;> trivial

/-- Witness for classify_failure_no_escalation: a classification call that
returns a 500 status. -/
theorem classify_failure_no_escalation_witness :
    (classifyMessage (HttpOutcome.badStatus 500)).category = some "UNKNOWN" ∧
    (onUserTurnCompleted {} "hello" (HttpOutcome.badStatus 500)
        HttpOutcome.failure).response = some "Could you describe your symptoms?" ∧
    (onUserTurnCompleted {} "hello" (HttpOutcome.badStatus 500)
        HttpOutcome.failure).councilCalled = false ∧
    (onUserTurnCompleted {} "hello" (HttpOutcome.badStatus 500)
        HttpOutcome.failure).smsSent = false ∧
    (onUserTurnCompleted {} "hello" (HttpOutcome.badStatus 500)
        HttpOutcome.failure).state.is_emergency = SessionState.is_emergency {} ∧
    (onUserTurnCompleted {} "hello" (HttpOutcome.badStatus 500)
        HttpOutcome.failure).state.emergency_confirmed = SessionState.emergency_confirmed {} ∧
    (onUserTurnCompleted {} "hello" (HttpOutcome.badStatus 500)
        HttpOutcome.failure).state.council_response = SessionState.council_response {} :=
  classify_failure_no_escalation {} "hello" (HttpOutcome.badStatus 500) HttpOutcome.failure
    (by decide) (fun body h => HttpOutcome.noConfusion h)

/-- Option.getD yields a non-empty string when the default is non-empty and
every present value is non-empty. -/
theorem getD_ne_empty (o : Option String) (d : String) (hd : d ≠ "")
    (h : ∀ s, o = some s → s ≠ "") : o.getD d ≠ "" := by
  cases o with
  | none => simpa using hd
  | some s => simpa using h s rfl

/-- Counterexample to claim C8 as stated: a 200 classification whose response
field is the empty string makes the handler fill the open turn's assistant
field with the empty string — the turn is filled, but not with a non-empty
response text. -/
theorem turn_filled_empty_response_cex :
    (onUserTurnCompleted {} "hi"
        (HttpOutcome.success { category := some "NORMAL", response := some "" })
        HttpOutcome.failure).response = some "" ∧
    (onUserTurnCompleted {} "hi"
        (HttpOutcome.success { category := some "NORMAL", response := some "" })
        HttpOutcome.failure).state.conversation_history =
      [{ human := "hi", assistant := some "" }] := by
  constructor <;> rfl

/-- Claim C8 (amended): for every non-empty user utterance, on every path of
the per-turn pipeline the open turn's assistant field is filled with the
returned response text before the handler returns, so no turn is left open;
that text is non-empty provided every response field present on a 200 backend
body is non-empty (a backend-supplied empty response string is forwarded
verbatim, see the counterexample). -/
theorem turn_always_filled (st : SessionState) (msg : String)
    (classifyOutcome : HttpOutcome ClassificationDict)
    (councilOutcome : HttpOutcome CouncilResponse)
    (hmsg : pyStrip msg ≠ "")
    (hc : ∀ body s, classifyOutcome = HttpOutcome.success body → body.response = some s → s ≠ "")
    (hk : ∀ body s, councilOutcome = HttpOutcome.success body → body.response = some s → s ≠ "") :
    ∃ t, t ≠ "" ∧
      (onUserTurnCompleted st msg classifyOutcome councilOutcome).response = some t ∧
      (onUserTurnCompleted st msg classifyOutcome councilOutcome).state.conversation_history =
        st.conversation_history ++ [{ human := msg, assistant := some t }] := by
  have hmsgb : (pyStrip msg == "") = false := beq_eq_false_iff_ne.mpr hmsg
  have hcresp : ∀ s, (classifyMessage classifyOutcome).response = some s → s ≠ "" := by
    cases classifyOutcome with
    | success body => exact fun s hs => hc body s rfl hs
    | badStatus code =>
        intro s hs
        simp only [classifyMessage, Option.some.injEq] at hs
        subst hs; decide
    | failure =>
        intro s hs
        simp only [classifyMessage, Option.some.injEq] at hs
        subst hs; decide
  have hkresp : ∀ s, (invokeCouncil councilOutcome).response = some s → s ≠ "" := by
    cases councilOutcome with
    | success body => exact fun s hs => hk body s rfl hs
    | badStatus code =>
        intro s hs
        simp only [invokeCouncil, councilFallback, Option.some.injEq] at hs
        subst hs; decide
    | failure =>
        intro s hs
        simp only [invokeCouncil, councilFallback, Option.some.injEq] at hs
        subst hs; decide
  by_cases hcat : ((classifyMessage classifyOutcome).category == some "CRITICAL" ||
      (classifyMessage classifyOutcome).category == some "EMERGENCY") = true
  · by_cases hconf : councilConfirmsEmergency (invokeCouncil councilOutcome) = true
    · refine ⟨(invokeCouncil councilOutcome).response.getD
        "This is an emergency. Help is being dispatched. Please stay calm.",
        getD_ne_empty _ _ (by decide) hkresp, ?_, ?_⟩
      · simp only [onUserTurnCompleted, hmsgb, hcat, hconf, Bool.false_eq_true, if_false, if_true]
      · simp only [onUserTurnCompleted, hmsgb, hcat, hconf, Bool.false_eq_true, if_false, if_true,
          setLastAssistant_append]
    · rw [Bool.not_eq_true] at hconf
      refine ⟨(invokeCouncil councilOutcome).response.getD
        "After careful review, your symptoms need attention but may not be immediately critical. Please monitor your condition and seek medical care soon.",
        getD_ne_empty _ _ (by decide) hkresp, ?_, ?_⟩
      · simp only [onUserTurnCompleted, hmsgb, hcat, hconf, Bool.false_eq_true, if_false, if_true]
      · simp only [onUserTurnCompleted, hmsgb, hcat, hconf, Bool.false_eq_true, if_false, if_true,
          setLastAssistant_append]
  · rw [Bool.not_eq_true] at hcat
    refine ⟨(classifyMessage classifyOutcome).response.getD
      "I understand. Can you tell me more about your symptoms?",
      getD_ne_empty _ _ (by decide) hcresp, ?_, ?_⟩
    · simp only [onUserTurnCompleted, hmsgb, hcat, Bool.false_eq_true, if_false]
    · simp only [onUserTurnCompleted, hmsgb, hcat, Bool.false_eq_true, if_false,
        setLastAssistant_append]

/-- Witness for turn_always_filled: a NORMAL classification with a non-empty
response on an initial session state. -/
theorem turn_always_filled_witness :
    ∃ t, t ≠ "" ∧
      (onUserTurnCompleted {} "hello"
          (HttpOutcome.success { category := some "NORMAL", response := some "ok" })
          HttpOutcome.failure).response = some t ∧
      (onUserTurnCompleted {} "hello"
          (HttpOutcome.success { category := some "NORMAL", response := some "ok" })
          HttpOutcome.failure).state.conversation_history =
        SessionState.conversation_history {} ++ [{ human := "hello", assistant := some t }] :=
  turn_always_filled {} "hello"
    (HttpOutcome.success { category := some "NORMAL", response := some "ok" })
    HttpOutcome.failure
    (by decide)
    (fun body s hb hs => by
      injection hb with h
      subst h
      injection hs with h2
      subst h2
      decide)
    (fun body s hb hs => HttpOutcome.noConfusion hb)

/-- The history loop of _build_llm_payload, characterized on histories whose
human texts are all non-empty and whose every turn except possibly the last
carries a truthy reply: each turn yields exactly one exchange, in order, with
the reply text (or the "" placeholder for the open turn). -/
theorem filterMap_formatTurn (h : List Turn)
    (hhuman : ∀ t ∈ h, t.human ≠ "")
    (hclosed : ∀ t ∈ h.dropLast, truthyStr t.assistant = true) :
    h.filterMap formatTurn =
      h.map (fun t => { assistant := t.assistant.getD "", human := t.human }) := by
  induction h with
  | nil => rfl
  | cons a rest ih =>
      have ha : a.human ≠ "" := hhuman a (by simp)
      have hab : (a.human != "") = true := bne_iff_ne.mpr ha
      cases rest with
      | nil =>
          by_cases hta : truthyStr a.assistant = true
          · simp [formatTurn, hta, hab]
          · rw [Bool.not_eq_true] at hta
            have hget : a.assistant.getD "" = "" := by
              cases hcase : a.assistant with
              | none => rfl
              | some s =>
                  rw [hcase] at hta
                  have hse : s = "" := by simpa [truthyStr] using hta
                  simp [hse]
            simp [formatTurn, hta, hab, hget]
      | cons b rest2 =>
          have hta : truthyStr a.assistant = true := by
            refine hclosed a ?_
            simp [List.dropLast]
          have hhuman2 : ∀ t ∈ b :: rest2, t.human ≠ "" :=
            fun t ht => hhuman t (List.mem_cons_of_mem a ht)
          have hclosed2 : ∀ t ∈ (b :: rest2).dropLast, truthyStr t.assistant = true := by
            intro t ht
            refine hclosed t ?_
            simp [List.dropLast, ht]
          have htruthy : ∃ s, a.assistant = some s ∧ s ≠ "" := by
            cases hcase : a.assistant with
            | none => rw [hcase] at hta; exact absurd hta (by simp [truthyStr])
            | some s =>
                rw [hcase] at hta
                simp only [truthyStr, bne_iff_ne, ne_eq] at hta
                exact ⟨s, rfl, hta⟩
          obtain ⟨s, hs, hsne⟩ := htruthy
          have hta2 : truthyStr (some s) = true := by
            rw [hs] at hta
            exact hta
          have hfa : formatTurn a = some { assistant := s, human := a.human } := by
            simp [formatTurn, hs, hta2, hab]
          simp only [List.filterMap_cons, hfa, ih hhuman2 hclosed2, List.map_cons, hs,
            Option.getD_some]

/-- Claim C7: for every conversation history whose turns all carry a
non-empty human text and in which only the last turn may lack a reply (the
shape the pipeline maintains), the payload builder produces an ordered list
of exchanges in which every turn with a filled assistant reply is emitted as
its (human, assistant) pair and the single currently-open turn, if any, is
emitted with the "" assistant placeholder; the image reference is included
exactly when a (truthy) image is present. -/
theorem build_payload_characterization (st : SessionState)
    (hhuman : ∀ t ∈ st.conversation_history, t.human ≠ "")
    (hclosed : ∀ t ∈ st.conversation_history.dropLast, truthyStr t.assistant = true) :
    (buildLlmPayload st).text =
      st.conversation_history.map
        (fun t => { assistant := t.assistant.getD "", human := t.human }) ∧
    ((buildLlmPayload st).image.isSome = true ↔ truthyStr st.current_image = true) ∧
    (truthyStr st.current_image = true → (buildLlmPayload st).image = st.current_image) := by
  refine ⟨filterMap_formatTurn st.conversation_history hhuman hclosed, ?_, ?_⟩
  · by_cases himg : truthyStr st.current_image = true
    · cases hcase : st.current_image with
      | none => rw [hcase] at himg; exact absurd himg (by simp [truthyStr])
      | some s => rw [hcase] at himg; simp [buildLlmPayload, himg, hcase]
    · rw [Bool.not_eq_true] at himg
      simp [buildLlmPayload, himg]
  · intro himg
    simp [buildLlmPayload, himg]

/-- Sample session state with one filled turn, one open turn and an image,
used by the payload-builder witness. -/
def samplePayloadState : SessionState :=
  { patient_id := some "P1",
    location := some "L1",
    conversation_history := [{ human := "a", assistant := some "x" },
                             { human := "b", assistant := none }],
    current_image := some "img" }

/-- Witness for build_payload_characterization at samplePayloadState. -/
theorem build_payload_characterization_witness :
    (buildLlmPayload samplePayloadState).text =
      samplePayloadState.conversation_history.map
        (fun t => { assistant := t.assistant.getD "", human := t.human }) ∧
    ((buildLlmPayload samplePayloadState).image.isSome = true ↔
      truthyStr samplePayloadState.current_image = true) ∧
    (truthyStr samplePayloadState.current_image = true →
      (buildLlmPayload samplePayloadState).image = samplePayloadState.current_image) :=
  build_payload_characterization samplePayloadState (by decide) (by decide)

/-- One loop step appends the per-phone attempts of that contact alone to
both accumulators. -/
theorem attemptStep_append (env : TwilioEnv) (req : EmergencyAlertRequest)
    (acc : List AttemptResult × List AlertRecord) (phone0 : String) :
    attemptStep env req acc phone0 =
      (acc.1 ++ (attemptStep env req ([], []) phone0).1,
       acc.2 ++ (attemptStep env req ([], []) phone0).2) := by
  cases hsms : req.send_sms <;> cases hcall : req.make_call <;>
    cases hso : env.smsOutcome (normalizePhone phone0) <;>
    cases hco : env.callOutcome (normalizePhone phone0) <;>
      simp [attemptStep, hsms, hcall, hso, hco]

/-- The alert loop is the concatenation, contact by contact, of each
contact's own attempts: no contact's outcome influences another's. -/
theorem triggerLoop_eq_flatMap (env : TwilioEnv) (req : EmergencyAlertRequest)
    (phones : List String) :
    triggerLoop env req phones =
      (phones.flatMap (fun p => (attemptStep env req ([], []) p).1),
       phones.flatMap (fun p => (attemptStep env req ([], []) p).2)) := by
  suffices h : ∀ acc, phones.foldl (attemptStep env req) acc =
      (acc.1 ++ phones.flatMap (fun p => (attemptStep env req ([], []) p).1),
       acc.2 ++ phones.flatMap (fun p => (attemptStep env req ([], []) p).2)) by
    simpa [triggerLoop] using h ([], [])
  induction phones with
  | nil => intro acc; simp
  | cons p rest ih =>
      intro acc
      rw [List.foldl_cons, attemptStep_append, ih]
      simp [List.flatMap_cons, List.append_assoc]

/-- Every result record of one contact's attempts passes the three-status
check, stated as a boolean List.all so each case evaluates. -/
theorem phoneAttempts_status_all (env : TwilioEnv) (req : EmergencyAlertRequest) (p : String) :
    (attemptStep env req ([], []) p).1.all
      (fun r => r.status == "sent" || r.status == "calling" || r.status == "failed") = true := by
  cases hsms : req.send_sms <;> cases hcall : req.make_call <;>
    cases hso : env.smsOutcome (normalizePhone p) <;>
    cases hco : env.callOutcome (normalizePhone p) <;>
      simp [attemptStep, hsms, hcall, hso, hco]

/-- One contact contributes one result per requested channel. -/
theorem phoneAttempts_length (env : TwilioEnv) (req : EmergencyAlertRequest) (p : String) :
    (attemptStep env req ([], []) p).1.length =
      (if req.send_sms then 1 else 0) + (if req.make_call then 1 else 0) := by
  cases hsms : req.send_sms <;> cases hcall : req.make_call <;>
    cases hso : env.smsOutcome (normalizePhone p) <;>
    cases hco : env.callOutcome (normalizePhone p) <;>
      simp [attemptStep, hsms, hcall, hso, hco]

/-- Length of a flatMap whose pieces all have the same length. -/
theorem flatMap_const_length {α β : Type} (l : List α) (f : α → List β) (c : ℕ)
    (h : ∀ a ∈ l, (f a).length = c) : (l.flatMap f).length = l.length * c := by
  induction l with
  | nil => simp
  | cons a rest ih =>
      have hrest : ∀ x ∈ rest, (f x).length = c := fun x hx => h x (by simp [hx])
      simp only [List.flatMap_cons, List.length_append, h a (by simp), ih hrest,
        List.length_cons]
      ring

/-- When the guards pass, trigger_emergency_alerts returns the loop results
and appends the loop's records to the room's alert log. -/
theorem trigger_ok (env : TwilioEnv) (st : ManagerState)
    (req : EmergencyAlertRequest) (session : RoomSession)
    (hroom : lookupRoom st req.room_name = some session)
    (hphones : (resolvePhones req session env).isEmpty = false)
    (hphone : truthyStr env.twilio_phone = true)
    (hcred : env.credentials_ok = true) :
    triggerEmergencyAlerts env st req = Except.ok
      ({ status := "alerts_triggered", room_name := req.room_name, urgency := req.urgency, join_url := session.join_url, results := (triggerLoop env req (resolvePhones req session env)).1 },
       { st with alerts_sent := appendAlerts st.alerts_sent req.room_name (triggerLoop env req (resolvePhones req session env)).2 }) := by
  simp only [triggerEmergencyAlerts, hroom, hphones, hphone, hcred, Bool.not_true,
    Bool.false_eq_true, if_false]

/-- Claim C6: for every contact list and channel selection given to the
emergency alert trigger (once past the configuration guards), each requested
channel is attempted independently for every contact: the results list is the
per-contact concatenation of each contact's own attempts — so a failure on
one contact/channel pair cannot affect the record of any other pair — with
exactly one record per contact per requested channel, and every record's
status is sent, calling (initiated) or failed. -/
theorem trigger_attempts_independent (env : TwilioEnv) (st : ManagerState)
    (req : EmergencyAlertRequest) (session : RoomSession)
    (hroom : lookupRoom st req.room_name = some session)
    (hphones : (resolvePhones req session env).isEmpty = false)
    (hphone : truthyStr env.twilio_phone = true)
    (hcred : env.credentials_ok = true) :
    ∃ resp st2, triggerEmergencyAlerts env st req = Except.ok (resp, st2) ∧
      resp.results = (resolvePhones req session env).flatMap
        (fun p => (attemptStep env req ([], []) p).1) ∧
      resp.results.length = (resolvePhones req session env).length *
        ((if req.send_sms then 1 else 0) + (if req.make_call then 1 else 0)) ∧
      ∀ r ∈ resp.results, r.status = "sent" ∨ r.status = "calling" ∨ r.status = "failed" := by
  refine ⟨_, _, trigger_ok env st req session hroom hphones hphone hcred, ?_, ?_, ?_⟩
  · rw [triggerLoop_eq_flatMap]
  · rw [triggerLoop_eq_flatMap]
    exact flatMap_const_length _ _ _ (fun p _ => phoneAttempts_length env req p)
  · intro r hr
    rw [triggerLoop_eq_flatMap] at hr
    simp only [List.mem_flatMap] at hr
    obtain ⟨p, _, hrp⟩ := hr
    have hall := List.all_eq_true.mp (phoneAttempts_status_all env req p) r hrp
    simpa [or_assoc] using hall

/-- Fixture: a started session for patient P1 with one emergency contact. -/
def sampleSession : RoomSession :=
  { patient_id := "P1", location := "L1", hardware_id := "H1",
    started_at := "2026-01-01T00:00:00", image := none, doctor_ids := [],
    emergency_phones := ["+15550001111"], doctor_token := "tok",
    join_url := "http://join" }

/-- Fixture: the manager state right after start_session created room1. -/
def sampleState : ManagerState :=
  { active_sessions := [("room1", sampleSession)], alerts_sent := [("room1", [])] }

/-- Fixture: a fully configured Twilio environment whose sends all succeed. -/
def sampleEnv : TwilioEnv :=
  { twilio_phone := some "+15559990000", credentials_ok := true, env_phone_numbers := [],
    smsOutcome := fun _ => Except.ok "SM1", callOutcome := fun _ => Except.ok "CA1" }

/-- Fixture: an SMS-only emergency-alert request for room1. -/
def sampleRequest : EmergencyAlertRequest :=
  { room_name := "room1", assessment := "assess", urgency := "HIGH",
    phone_numbers := none, send_sms := true, make_call := false }

/-- Witness for trigger_attempts_independent at the sample fixtures. -/
theorem trigger_attempts_independent_witness :
    ∃ resp st2, triggerEmergencyAlerts sampleEnv sampleState sampleRequest =
        Except.ok (resp, st2) ∧
      resp.results = (resolvePhones sampleRequest sampleSession sampleEnv).flatMap
        (fun p => (attemptStep sampleEnv sampleRequest ([], []) p).1) ∧
      resp.results.length = (resolvePhones sampleRequest sampleSession sampleEnv).length *
        ((if sampleRequest.send_sms then 1 else 0) +
         (if sampleRequest.make_call then 1 else 0)) ∧
      ∀ r ∈ resp.results, r.status = "sent" ∨ r.status = "calling" ∨ r.status = "failed" :=
  trigger_attempts_independent sampleEnv sampleState sampleRequest sampleSession
    rfl rfl rfl rfl

/-- An SMS the provider rejects is recorded as a failed attempt for that
contact, with the error message, in that contact's own attempts. -/
theorem sms_failure_recorded (env : TwilioEnv) (req : EmergencyAlertRequest)
    (p e : String)
    (hsms : req.send_sms = true)
    (hfail : env.smsOutcome (normalizePhone p) = Except.error e) :
    ({ phone := normalizePhone p, channel := "sms", status := "failed", error := some e } :
      AttemptResult) ∈ (attemptStep env req ([], []) p).1 := by
  cases hcall : req.make_call <;>
    cases hco : env.callOutcome (normalizePhone p) <;>
      simp [attemptStep, hsms, hcall, hfail, hco]

/-- A call the provider rejects is recorded as a failed attempt for that
contact, with the error message, in that contact's own attempts. -/
theorem call_failure_recorded (env : TwilioEnv) (req : EmergencyAlertRequest)
    (p e : String)
    (hcall : req.make_call = true)
    (hfail : env.callOutcome (normalizePhone p) = Except.error e) :
    ({ phone := normalizePhone p, channel := "call", status := "failed", error := some e } :
      AttemptResult) ∈ (attemptStep env req ([], []) p).1 := by
  cases hsms : req.send_sms <;>
    cases hso : env.smsOutcome (normalizePhone p) <;>
      simp [attemptStep, hsms, hcall, hfail, hso]

/-- Every result record of one contact's attempts carries that contact's
normalized number. -/
theorem phoneAttempts_phone_all (env : TwilioEnv) (req : EmergencyAlertRequest) (p : String) :
    (attemptStep env req ([], []) p).1.all (fun r => r.phone == normalizePhone p) = true := by
  cases hsms : req.send_sms <;> cases hcall : req.make_call <;>
    cases hso : env.smsOutcome (normalizePhone p) <;>
    cases hco : env.callOutcome (normalizePhone p) <;>
      simp [attemptStep, hsms, hcall, hso, hco]

/-- Counterexample to claim C5 as stated: a contact number that already
starts with "+" is passed through normalize_phone unchanged — spaces,
parentheses and dashes included — so the number handed to the dispatch loop
is not in canonical E.164 format. -/
theorem normalize_not_e164_cex :
    normalizePhone "+1 (555) 123-4567" = "+1 (555) 123-4567" ∧
    isE164 (normalizePhone "+1 (555) 123-4567") = false ∧
    (attemptStep sampleEnv sampleRequest ([], []) "+1 (555) 123-4567").1 =
      [{ phone := "+1 (555) 123-4567", channel := "sms", status := "sent", error := none }] := by
  refine ⟨?_, ?_, ?_⟩ <;> decide

/-- Claim C5 (amended): every phone number in the contact list is passed
through normalize_phone before dispatch (strip whitespace; strip separators
and prefix "+1" only when the number lacks a leading "+" — a number already
starting with "+" is dispatched as given, so canonical E.164 form is not
guaranteed); a number the provider rejects on a channel yields a failed
attempt record for that contact while every other contact's attempts are
still made and recorded. -/
theorem trigger_normalizes_and_isolates_failures (env : TwilioEnv) (st : ManagerState)
    (req : EmergencyAlertRequest) (session : RoomSession)
    (hroom : lookupRoom st req.room_name = some session)
    (hphones : (resolvePhones req session env).isEmpty = false)
    (hphone : truthyStr env.twilio_phone = true)
    (hcred : env.credentials_ok = true) :
    ∃ resp st2, triggerEmergencyAlerts env st req = Except.ok (resp, st2) ∧
      (∀ r ∈ resp.results, ∃ p ∈ resolvePhones req session env, r.phone = normalizePhone p) ∧
      (∀ p ∈ resolvePhones req session env,
        (attemptStep env req ([], []) p).1 ⊆ resp.results) ∧
      (∀ p ∈ resolvePhones req session env, ∀ e, req.send_sms = true →
        env.smsOutcome (normalizePhone p) = Except.error e →
        ({ phone := normalizePhone p, channel := "sms", status := "failed", error := some e } :
          AttemptResult) ∈ resp.results) ∧
      (∀ p ∈ resolvePhones req session env, ∀ e, req.make_call = true →
        env.callOutcome (normalizePhone p) = Except.error e →
        ({ phone := normalizePhone p, channel := "call", status := "failed", error := some e } :
          AttemptResult) ∈ resp.results) := by
  refine ⟨_, _, trigger_ok env st req session hroom hphones hphone hcred, ?_, ?_, ?_, ?_⟩
  · intro r hr
    rw [triggerLoop_eq_flatMap] at hr
    simp only [List.mem_flatMap] at hr
    obtain ⟨p, hp, hrp⟩ := hr
    have hphoneEq := List.all_eq_true.mp (phoneAttempts_phone_all env req p) r hrp
    exact ⟨p, hp, by simpa using hphoneEq⟩
  · intro p hp r hr
    rw [triggerLoop_eq_flatMap]
    simp only [List.mem_flatMap]
    exact ⟨p, hp, hr⟩
  · intro p hp e hsms hfail
    rw [triggerLoop_eq_flatMap]
    simp only [List.mem_flatMap]
    exact ⟨p, hp, sms_failure_recorded env req p e hsms hfail⟩
  · intro p hp e hcall hfail
    rw [triggerLoop_eq_flatMap]
    simp only [List.mem_flatMap]
    exact ⟨p, hp, call_failure_recorded env req p e hcall hfail⟩

/-- Fixture: a provider that rejects the first contact's SMS and accepts
everything else. -/
def mixedEnv : TwilioEnv :=
  { twilio_phone := some "+15559990000", credentials_ok := true, env_phone_numbers := [],
    smsOutcome := fun ph => if ph == "+15550001111" then Except.error "bad number"
                            else Except.ok "SM1",
    callOutcome := fun _ => Except.ok "CA1" }

/-- Fixture: a request naming two contacts on both channels. -/
def twoPhoneRequest : EmergencyAlertRequest :=
  { room_name := "room1", assessment := "assess", urgency := "HIGH",
    phone_numbers := some ["+15550001111", "555-222-3333"],
    send_sms := true, make_call := true }

/-- Witness for trigger_normalizes_and_isolates_failures with one rejected
contact among two. -/
theorem trigger_normalizes_and_isolates_failures_witness :
    ∃ resp st2, triggerEmergencyAlerts mixedEnv sampleState twoPhoneRequest =
        Except.ok (resp, st2) ∧
      (∀ r ∈ resp.results, ∃ p ∈ resolvePhones twoPhoneRequest sampleSession mixedEnv,
        r.phone = normalizePhone p) ∧
      (∀ p ∈ resolvePhones twoPhoneRequest sampleSession mixedEnv,
        (attemptStep mixedEnv twoPhoneRequest ([], []) p).1 ⊆ resp.results) ∧
      (∀ p ∈ resolvePhones twoPhoneRequest sampleSession mixedEnv, ∀ e,
        twoPhoneRequest.send_sms = true →
        mixedEnv.smsOutcome (normalizePhone p) = Except.error e →
        ({ phone := normalizePhone p, channel := "sms", status := "failed", error := some e } :
          AttemptResult) ∈ resp.results) ∧
      (∀ p ∈ resolvePhones twoPhoneRequest sampleSession mixedEnv, ∀ e,
        twoPhoneRequest.make_call = true →
        mixedEnv.callOutcome (normalizePhone p) = Except.error e →
        ({ phone := normalizePhone p, channel := "call", status := "failed", error := some e } :
          AttemptResult) ∈ resp.results) :=
  trigger_normalizes_and_isolates_failures mixedEnv sampleState twoPhoneRequest sampleSession
    rfl rfl rfl rfl

/-- Fixture: the manager state after one successful SMS dispatch for room1 —
its alert log already records a sent alert. -/
def stateAfterFirst : ManagerState :=
  match triggerEmergencyAlerts sampleEnv sampleState sampleRequest with
  | Except.ok out => out.2
  | Except.error _ => sampleState

/-- Counterexample to claim C2 as stated: the service keeps no
alertsTriggered flag.  Starting from a state whose alert log already records
a successfully sent alert for the session, a second call to the alert
trigger is not a no-op: it contacts the provider again, returns a fresh sent
result, and appends a second record to the session's alert log. -/
theorem alert_dispatch_not_idempotent_cex :
    lookupAlerts stateAfterFirst "room1" =
      some [{ phone := "+15550001111", channel := "sms", status := "sent", sid := some "SM1" }] ∧
    (match triggerEmergencyAlerts sampleEnv stateAfterFirst sampleRequest with
     | Except.ok out => out.1.results
     | Except.error _ => []) =
      [{ phone := "+15550001111", channel := "sms", status := "sent", error := none }] ∧
    (match triggerEmergencyAlerts sampleEnv stateAfterFirst sampleRequest with
     | Except.ok out => lookupAlerts out.2 "room1"
     | Except.error _ => none) =
      some [{ phone := "+15550001111", channel := "sms", status := "sent", sid := some "SM1" },
            { phone := "+15550001111", channel := "sms", status := "sent", sid := some "SM1" }] := by
  refine ⟨?_, ?_, ?_⟩ <;> decide

/-- Claim C2 (amended): alert dispatch is not idempotent per session — the
service keeps no alertsTriggered flag, and what trigger_emergency_alerts
dispatches depends only on the request, the session entry and the provider
environment, never on the existing alert log; so every successful call (in
particular each repeated confirmed-emergency turn) re-attempts dispatch to
every resolved contact and appends new attempt records. -/
theorem trigger_redispatches (env : TwilioEnv) (st st' : ManagerState)
    (req : EmergencyAlertRequest) (session : RoomSession)
    (hsame : st'.active_sessions = st.active_sessions)
    (hroom : lookupRoom st req.room_name = some session)
    (hphones : (resolvePhones req session env).isEmpty = false)
    (hphone : truthyStr env.twilio_phone = true)
    (hcred : env.credentials_ok = true)
    (hsms : req.send_sms = true) :
    ∃ resp stA respB stB,
      triggerEmergencyAlerts env st req = Except.ok (resp, stA) ∧
      triggerEmergencyAlerts env st' req = Except.ok (respB, stB) ∧
      respB.results = resp.results ∧
      resp.results ≠ [] := by
  have hroom2 : lookupRoom st' req.room_name = some session := by
    unfold lookupRoom
    rw [hsame]
    exact hroom
  refine ⟨_, _, _, _, trigger_ok env st req session hroom hphones hphone hcred,
    trigger_ok env st' req session hroom2 hphones hphone hcred, rfl, ?_⟩
  intro hnil
  have hlen : ((triggerLoop env req (resolvePhones req session env)).1).length =
      (resolvePhones req session env).length *
        ((if req.send_sms then 1 else 0) + (if req.make_call then 1 else 0)) := by
    rw [triggerLoop_eq_flatMap]
    exact flatMap_const_length _ _ _ (fun p _ => phoneAttempts_length env req p)
  have hne : (resolvePhones req session env).length ≠ 0 := by
    intro h0
    rw [List.length_eq_zero] at h0
    rw [h0] at hphones
    simp at hphones
  have h0 := congrArg List.length hnil
  rw [hlen] at h0
  rw [hsms] at h0
  simp only [if_true, List.length_nil] at h0
  rcases Nat.mul_eq_zero.mp h0 with h | h
  · exact hne h
  · omega

/-- Witness for trigger_redispatches: the second call starts from the state
whose alert log already records the first dispatch. -/
theorem trigger_redispatches_witness :
    ∃ resp stA respB stB,
      triggerEmergencyAlerts sampleEnv sampleState sampleRequest = Except.ok (resp, stA) ∧
      triggerEmergencyAlerts sampleEnv stateAfterFirst sampleRequest = Except.ok (respB, stB) ∧
      respB.results = resp.results ∧
      resp.results ≠ [] :=
  trigger_redispatches sampleEnv sampleState stateAfterFirst sampleRequest sampleSession
    rfl rfl rfl rfl rfl rfl

/-- After popping a key, no association-list entry with that key remains. -/
theorem find_popKey_none {α : Type} (al : List (String × α)) (room : String) :
    (popKey al room).find? (fun p => p.1 == room) = none := by
  rw [List.find?_eq_none]
  intro x hx
  have hmem := List.mem_filter.mp hx
  simpa using hmem.2

/-- Claim C10: ending a session is atomic with respect to the registry: when
deleting the backing room fails, end_session raises an error with the
session's active-session entry and alert log untouched; when the deletion
succeeds, the entry and the alert log are removed and the ended body is
returned. -/
theorem end_session_atomic (deleteSucceeds : Bool) (st : ManagerState) (room : String)
    (hactive : (lookupRoom st room).isSome = true) :
    (deleteSucceeds = false →
      (endSession deleteSucceeds st room).1 =
        Except.error (HttpError.serverError "Failed to end session") ∧
      (endSession deleteSucceeds st room).2 = st) ∧
    (deleteSucceeds = true →
      lookupRoom (endSession deleteSucceeds st room).2 room = none ∧
      lookupAlerts (endSession deleteSucceeds st room).2 room = none ∧
      ∃ r, (endSession deleteSucceeds st room).1 = Except.ok r ∧ r.status = "ended") := by
  obtain ⟨session, hsession⟩ := Option.isSome_iff_exists.mp hactive
  constructor
  · intro hdel
    subst hdel
    rw [endSession, hsession]
    exact ⟨rfl, rfl⟩
  · intro hdel
    subst hdel
    rw [endSession, hsession]
    refine ⟨?_, ?_, ?_⟩
    · simp only [lookupRoom, if_true]
      rw [find_popKey_none]
      rfl
    · simp only [lookupAlerts, if_true]
      rw [find_popKey_none]
      rfl
    · exact ⟨_, rfl, rfl⟩

/-- Witness for end_session_atomic on the sample state, exercising both the
failed-deletion and the successful-deletion branch. -/
theorem end_session_atomic_witness :
    ((false = false →
      (endSession false sampleState "room1").1 =
        Except.error (HttpError.serverError "Failed to end session") ∧
      (endSession false sampleState "room1").2 = sampleState) ∧
    (false = true →
      lookupRoom (endSession false sampleState "room1").2 "room1" = none ∧
      lookupAlerts (endSession false sampleState "room1").2 "room1" = none ∧
      ∃ r, (endSession false sampleState "room1").1 = Except.ok r ∧ r.status = "ended")) ∧
    ((true = false →
      (endSession true sampleState "room1").1 =
        Except.error (HttpError.serverError "Failed to end session") ∧
      (endSession true sampleState "room1").2 = sampleState) ∧
    (true = true →
      lookupRoom (endSession true sampleState "room1").2 "room1" = none ∧
      lookupAlerts (endSession true sampleState "room1").2 "room1" = none ∧
      ∃ r, (endSession true sampleState "room1").1 = Except.ok r ∧ r.status = "ended")) :=
  ⟨end_session_atomic false sampleState "room1" (by decide),
   end_session_atomic true sampleState "room1" (by decide)⟩
